import Mathlib

/-!
Shallow embedding of the mock J2534 passthrough DLL
(`src/tools/mock_j2534/op20pt32.c`): the PASSTHRU_MSG frame layout, the
response synthesis in `PassThruWriteMsgs`, the single-slot response mailbox
(`pending_response` / `has_pending`) and the drain path in `PassThruReadMsgs`.
Logging is pure side output in the C code and is modelled only through the
key observation record that the sendKey branch computes and logs.
-/

namespace MockJ2534

/-- A byte value, as stored in a `PASSTHRU_MSG.Data` cell (C `BYTE`). -/
abbrev Byte := Fin 256

/-- `PASSTHRU_MSG`.  `Data` models the whole 4128-byte backing buffer as a
function from index to byte: cells at or beyond `DataSize` still hold bytes,
exactly as in the C struct, because the C code indexes `Data` past `DataSize`
in places.  Fields not read by the modelled paths (`TxFlags`, `Timestamp`,
`ExtraDataIndex`) are omitted. -/
structure PassthruMsg where
  ProtocolID : Nat
  RxStatus : Nat
  Data : Nat → Byte
  DataSize : Nat

/-- C `#define STATUS_NOERROR 0`. -/
def STATUS_NOERROR : Nat := 0

/-- C `#define ISO15765 6`. -/
def ISO15765 : Nat := 6

/-- The `Data` buffer written by `build_can_response`: after `memset` to zero,
bytes 0..3 get the CAN id `00 00 07 E8` and the UDS payload is copied to
offset 4; every other cell keeps the zero from `memset`. -/
def canRespData (uds_payload : List Byte) : Nat → Byte := fun i =>
  if i = 0 then 0x00
  else if i = 1 then 0x00
  else if i = 2 then 0x07
  else if i = 3 then 0xE8
  else uds_payload.getD (i - 4) 0

/-- C `build_can_response`: zeroes the message, stamps ProtocolID ISO15765,
CAN id 0x7E8 at bytes 0..3, copies the UDS payload at offset 4 and sets
`DataSize = 4 + uds_len`, `RxStatus = 0`. -/
def build_can_response (uds_payload : List Byte) : PassthruMsg :=
  { ProtocolID := ISO15765
    RxStatus := 0
    Data := canRespData uds_payload
    DataSize := 4 + uds_payload.length }

/-- The diagnostic payload of a frame: the bytes from offset 4 up to
`DataSize` (offsets 0..3 are the CAN id). -/
def respPayload (m : PassthruMsg) : List Byte :=
  (List.range (m.DataSize - 4)).map fun i => m.Data (4 + i)

/-- What the sendKey branch computes and logs: the key extracted from the
request, the reference ("read-session formula") key, and whether they agree. -/
structure KeyObservation where
  observed_key : Nat
  candidate_key : Nat
  key_matches : Bool
deriving DecidableEq

/-- C `DWORD read_key = ((DWORD)0x1234 * 0x4081 + 0x1234) & 0xFFFF;`
(the product fits in 32 bits, so DWORD arithmetic is exact). -/
def read_key : Nat := (0x1234 * 0x4081 + 0x1234) &&& 0xFFFF

/-- The single-slot response mailbox: `has_pending`/`pending_response`
collapse to `none` (has_pending == 0) or `some r` (has_pending == 1 with
`r` in `pending_response`). -/
def Mailbox := Option PassthruMsg

/-- The store the write path performs: copy the response into
`pending_response` and set `has_pending = 1`, regardless of prior state. -/
def Mailbox.store (_ : Mailbox) (r : PassthruMsg) : Mailbox := some r

/-- The drain the read path performs when the caller accepts messages:
return the pending response and clear `has_pending`; with nothing pending
return nothing. -/
def Mailbox.take : Mailbox → Option PassthruMsg × Mailbox
  | some r => (some r, none)
  | none => (none, none)

/-- Result of one `PassThruWriteMsgs` call: the returned status, the mailbox
state after the call, and the key observation the sendKey branch logged
(`none` when that branch did not run). -/
structure WriteEffect where
  ret : Nat
  mailbox : Mailbox
  observation : Option KeyObservation

/-- C `PassThruWriteMsgs`.  `pMsg = none` / `pNumMsgs = none` model NULL
pointers.  Only the first message is examined.  Control flow mirrors the C:
bail out on NULL or zero count; for frames of at least 6 bytes dispatch on
`data[5]` (service) and `data[6]` (subfunction, read even when
`DataSize = 6`); shorter frames are ignored.  Always returns
STATUS_NOERROR. -/
def PassThruWriteMsgs (mailbox : Mailbox)
    (pMsg : Option PassthruMsg) (pNumMsgs : Option Nat) : WriteEffect :=
  match pMsg, pNumMsgs with
  | some m, some numMsgs =>
    if numMsgs = 0 then ⟨STATUS_NOERROR, mailbox, none⟩
    else
      let data := m.Data
      let len := m.DataSize
      if 6 ≤ len then
        let uds_svc := data 5
        let uds_sf := data 6
        if uds_svc = 0x10 then
          ⟨STATUS_NOERROR, mailbox.store (build_can_response [0x02, 0x50, uds_sf]),
            none⟩
        else if uds_svc = 0x27 ∧ uds_sf = 0x03 then
          ⟨STATUS_NOERROR,
            mailbox.store (build_can_response [0x04, 0x67, 0x03, 0x12, 0x34]),
            none⟩
        else if uds_svc = 0x27 ∧ uds_sf = 0x04 ∧ 8 ≤ len then
          let kh := data 7
          let kl := data 8
          let key := (kh.val <<< 8) ||| kl.val
          ⟨STATUS_NOERROR, mailbox.store (build_can_response [0x02, 0x67, 0x04]),
            some { observed_key := key,
                   candidate_key := read_key,
                   key_matches := key == read_key }⟩
        else if uds_svc = 0x34 then
          ⟨STATUS_NOERROR,
            mailbox.store (build_can_response [0x03, 0x74, 0x20, 0x0F]), none⟩
        else
          ⟨STATUS_NOERROR,
            mailbox.store (build_can_response [0x02, uds_svc + 0x40, uds_sf]),
            none⟩
      else ⟨STATUS_NOERROR, mailbox, none⟩
  | _, _ => ⟨STATUS_NOERROR, mailbox, none⟩

/-- Result of one `PassThruReadMsgs` call: returned status, mailbox state
after the call, the message copied into `pMsg[0]` (`none` if nothing was
copied) and the value left in `*pNumMsgs` (`none` when that pointer was
NULL and hence never written). -/
structure ReadEffect where
  ret : Nat
  mailbox : Mailbox
  outMsg : Option PassthruMsg
  numOut : Option Nat

/-- C `PassThruReadMsgs`.  `pMsgNull` models a NULL `pMsg`; `pNumMsgs = none`
models a NULL count pointer.  With both pointers valid: if a response is
pending and the caller accepts at least one message, hand it out, set
`*pNumMsgs = 1` and clear the slot; otherwise set `*pNumMsgs = 0` and leave
the slot as it is.  Always returns STATUS_NOERROR. -/
def PassThruReadMsgs (mailbox : Mailbox)
    (pMsgNull : Bool) (pNumMsgs : Option Nat) : ReadEffect :=
  match pNumMsgs with
  | none => ⟨STATUS_NOERROR, mailbox, none, none⟩
  | some numMsgs =>
    if pMsgNull then ⟨STATUS_NOERROR, mailbox, none, some numMsgs⟩
    else
      match mailbox with
      | some pending =>
        if 0 < numMsgs then ⟨STATUS_NOERROR, none, some pending, some 1⟩
        else ⟨STATUS_NOERROR, some pending, none, some 0⟩
      | none => ⟨STATUS_NOERROR, none, none, some 0⟩

/-- Buffer holding the bytes of `l`, zero elsewhere (a request whose caller
initialised the first `l.length` cells). -/
def listToBuf (l : List Byte) : Nat → Byte := fun i => l.getD i 0

/-- The session-control request of §8: `00 00 07 E0 02 10 03`. -/
def kSessionFrame : PassthruMsg :=
  { ProtocolID := ISO15765, RxStatus := 0
    Data := listToBuf [0x00, 0x00, 0x07, 0xE0, 0x02, 0x10, 0x03]
    DataSize := 7 }

/-- A 9-byte sendKey request `27 04 AA BB`. -/
def kSendKeyFrame : PassthruMsg :=
  { ProtocolID := ISO15765, RxStatus := 0
    Data := listToBuf [0x00, 0x00, 0x07, 0xE0, 0x04, 0x27, 0x04, 0xAA, 0xBB]
    DataSize := 9 }

/-- A sendKey request truncated to `DataSize = 8`: only one trailing byte
(0xAA) lies inside the frame, but the backing buffer still holds 0xBB at
offset 8. -/
def kSendKey8Frame : PassthruMsg :=
  { ProtocolID := ISO15765, RxStatus := 0
    Data := listToBuf [0x00, 0x00, 0x07, 0xE0, 0x03, 0x27, 0x04, 0xAA, 0xBB]
    DataSize := 8 }

/-- A 7-byte sendKey request with no trailing key bytes: payload exactly
`27 04`. -/
def kShortKey7Frame : PassthruMsg :=
  { ProtocolID := ISO15765, RxStatus := 0
    Data := listToBuf [0x00, 0x00, 0x07, 0xE0, 0x02, 0x27, 0x04]
    DataSize := 7 }

/-- A 6-byte frame, service 0x10, buffer cell 6 left at zero. -/
def kLen6AFrame : PassthruMsg :=
  { ProtocolID := ISO15765, RxStatus := 0
    Data := listToBuf [0x00, 0x00, 0x07, 0xE0, 0x01, 0x10]
    DataSize := 6 }

/-- A 6-byte frame agreeing with `kLen6AFrame` on bytes 0..5 but whose
backing buffer holds 0x01 at cell 6 (beyond `DataSize`). -/
def kLen6BFrame : PassthruMsg :=
  { ProtocolID := ISO15765, RxStatus := 0
    Data := listToBuf [0x00, 0x00, 0x07, 0xE0, 0x01, 0x10, 0x01]
    DataSize := 6 }

/-- A 6-byte frame agreeing with `kLen6AFrame` on buffer cells 0..6 but
holding 0x55 at cell 7. -/
def kLen6CFrame : PassthruMsg :=
  { ProtocolID := ISO15765, RxStatus := 0
    Data := listToBuf [0x00, 0x00, 0x07, 0xE0, 0x01, 0x10, 0x00, 0x55]
    DataSize := 6 }

/-- An unrecognized service 0x99 with subfunction 0x01 (§8 default-rule
example). -/
def kUnknownSvcFrame : PassthruMsg :=
  { ProtocolID := ISO15765, RxStatus := 0
    Data := listToBuf [0x00, 0x00, 0x07, 0xE0, 0x02, 0x99, 0x01]
    DataSize := 7 }

/-- A 3-byte (short) frame. -/
def kShortFrame : PassthruMsg :=
  { ProtocolID := ISO15765, RxStatus := 0
    Data := listToBuf [0x00, 0x00, 0x07]
    DataSize := 3 }

/-- A requestSeed request `27 03`. -/
def kSeedFrame : PassthruMsg :=
  { ProtocolID := ISO15765, RxStatus := 0
    Data := listToBuf [0x00, 0x00, 0x07, 0xE0, 0x02, 0x27, 0x03]
    DataSize := 7 }

/-- A diagnostic payload shaped like a UDS negative response as it would sit
in an ISO-TP single frame: length byte 0x03, then `7F <svc> <nrc>`. -/
def isNegativeResponse (p : List Byte) : Bool :=
  match p with
  | [l, a, _, _] => l == 0x03 && a == 0x7F
  | _ => false

/-- For bytes, the C idiom `(kh << 8) | kl` is `kh * 256 + kl`. -/
theorem shiftLeft_or_eq_mul_add (a b : Nat) (hb : b < 256) :
    (a <<< 8) ||| b = a * 256 + b := by
  have h : 2 ^ 8 * a + b = 2 ^ 8 * a ||| b :=
    Nat.mul_add_lt_is_or (by omega) a
  rw [Nat.shiftLeft_eq, Nat.mul_comm a (2 ^ 8), ← h]

/-- Reading the response buffer at offset `4 + i` recovers payload byte `i`. -/
theorem canRespData_payload (p : List Byte) (i : Nat) :
    canRespData p (4 + i) = p.getD i 0 := by
  have h0 : 4 + i ≠ 0 := by omega
  have h1 : 4 + i ≠ 1 := by omega
  have h2 : 4 + i ≠ 2 := by omega
  have h3 : 4 + i ≠ 3 := by omega
  simp only [canRespData, h0, h1, h2, h3, if_false, Nat.add_sub_cancel_left]

/-- The diagnostic payload of a built response is exactly the byte list the
rule produced. -/
theorem respPayload_build (p : List Byte) :
    respPayload (build_can_response p) = p := by
  apply List.ext_getElem
  · simp [respPayload, build_can_response]
  · intro i h1 h2
    simp only [respPayload, build_can_response, Nat.add_sub_cancel_left,
      List.getElem_map, List.getElem_range, canRespData_payload]
    exact List.getD_eq_getElem p 0 h2

/-- C3: writing the request frame `00 00 07 E0 02 10 03` stores a response
whose diagnostic payload is `02 50 03`; the next read returns exactly that
response and empties the mailbox, and a second immediate read reports zero
messages available. -/
theorem session_control_round_trip (mb : Mailbox) :
    ∃ r,
      (PassThruWriteMsgs mb (some kSessionFrame) (some 1)).mailbox = some r ∧
      respPayload r = [0x02, 0x50, 0x03] ∧
      (PassThruReadMsgs (PassThruWriteMsgs mb (some kSessionFrame) (some 1)).mailbox
        false (some 1)).outMsg = some r ∧
      (PassThruReadMsgs (PassThruWriteMsgs mb (some kSessionFrame) (some 1)).mailbox
        false (some 1)).numOut = some 1 ∧
      (PassThruReadMsgs (PassThruWriteMsgs mb (some kSessionFrame) (some 1)).mailbox
        false (some 1)).mailbox = none ∧
      (PassThruReadMsgs
        (PassThruReadMsgs (PassThruWriteMsgs mb (some kSessionFrame) (some 1)).mailbox
          false (some 1)).mailbox false (some 1)).numOut = some 0 ∧
      (PassThruReadMsgs
        (PassThruReadMsgs (PassThruWriteMsgs mb (some kSessionFrame) (some 1)).mailbox
          false (some 1)).mailbox false (some 1)).outMsg = none := by
  refine ⟨build_can_response [0x02, 0x50, 0x03], rfl, ?_, rfl, rfl, rfl, rfl, rfl⟩
  exact respPayload_build [0x02, 0x50, 0x03]

/-- C4: the mailbox is last-write-wins with capacity one: after
`store R1; store R2`, a take returns `R2` and leaves the slot empty, a second
take finds nothing, and the same holds through the read entry point. -/
theorem mailbox_last_write_wins (mb : Mailbox) (r1 r2 : PassthruMsg) :
    ((mb.store r1).store r2).take = (some r2, none) ∧
    (((mb.store r1).store r2).take.2).take = (none, none) ∧
    (PassThruReadMsgs ((mb.store r1).store r2) false (some 1)).outMsg = some r2 ∧
    (PassThruReadMsgs ((mb.store r1).store r2) false (some 1)).mailbox = none ∧
    (PassThruReadMsgs
      (PassThruReadMsgs ((mb.store r1).store r2) false (some 1)).mailbox
      false (some 1)).numOut = some 0 ∧
    (PassThruReadMsgs
      (PassThruReadMsgs ((mb.store r1).store r2) false (some 1)).mailbox
      false (some 1)).outMsg = none :=
  ⟨rfl, rfl, rfl, rfl, rfl, rfl⟩

/-- C5: a frame shorter than 6 bytes is silently dropped: the write returns
STATUS_NOERROR, leaves the mailbox untouched, makes no key observation, and
a following read on a previously empty mailbox reports zero messages. -/
theorem short_frame_dropped (mb : Mailbox) (m : PassthruMsg)
    (hlen : m.DataSize < 6) :
    PassThruWriteMsgs mb (some m) (some 1) =
      ⟨STATUS_NOERROR, mb, none⟩ ∧
    (mb = none →
      (PassThruReadMsgs (PassThruWriteMsgs mb (some m) (some 1)).mailbox
        false (some 1)).numOut = some 0 ∧
      (PassThruReadMsgs (PassThruWriteMsgs mb (some m) (some 1)).mailbox
        false (some 1)).outMsg = none) := by
  have h6 : ¬ 6 ≤ m.DataSize := by omega
  have hw : PassThruWriteMsgs mb (some m) (some 1) = ⟨STATUS_NOERROR, mb, none⟩ := by
    simp [PassThruWriteMsgs, h6]
  refine ⟨hw, ?_⟩
  rintro rfl
  rw [hw]
  exact ⟨rfl, rfl⟩

/-- C5 witness at the concrete 3-byte frame. -/
theorem short_frame_dropped_w :
    kShortFrame.DataSize < 6 ∧
    (PassThruWriteMsgs none (some kShortFrame) (some 1) =
      ⟨STATUS_NOERROR, none, none⟩ ∧
    ((none : Mailbox) = none →
      (PassThruReadMsgs (PassThruWriteMsgs none (some kShortFrame) (some 1)).mailbox
        false (some 1)).numOut = some 0 ∧
      (PassThruReadMsgs (PassThruWriteMsgs none (some kShortFrame) (some 1)).mailbox
        false (some 1)).outMsg = none)) :=
  ⟨by decide, short_frame_dropped none kShortFrame (by decide)⟩

/-- C10: a read with message count zero while a response is pending returns
STATUS_NOERROR, writes 0 to the caller's count, hands out no message and
keeps the pending response, so a later read with a positive count still
retrieves it. -/
theorem read_zero_count_keeps_pending (r : PassthruMsg) (n : Nat)
    (hn : 0 < n) :
    (PassThruReadMsgs (some r) false (some 0)).ret = STATUS_NOERROR ∧
    (PassThruReadMsgs (some r) false (some 0)).mailbox = some r ∧
    (PassThruReadMsgs (some r) false (some 0)).numOut = some 0 ∧
    (PassThruReadMsgs (some r) false (some 0)).outMsg = none ∧
    (PassThruReadMsgs (PassThruReadMsgs (some r) false (some 0)).mailbox
      false (some n)).outMsg = some r ∧
    (PassThruReadMsgs (PassThruReadMsgs (some r) false (some 0)).mailbox
      false (some n)).numOut = some 1 ∧
    (PassThruReadMsgs (PassThruReadMsgs (some r) false (some 0)).mailbox
      false (some n)).mailbox = none := by
  refine ⟨rfl, rfl, rfl, rfl, ?_, ?_, ?_⟩ <;>
    simp [PassThruReadMsgs, hn]

/-- C10 witness: pending session-control response, second read count 1. -/
theorem read_zero_count_keeps_pending_w :
    0 < 1 ∧
    ((PassThruReadMsgs (some kSessionFrame) false (some 0)).ret = STATUS_NOERROR ∧
    (PassThruReadMsgs (some kSessionFrame) false (some 0)).mailbox = some kSessionFrame ∧
    (PassThruReadMsgs (some kSessionFrame) false (some 0)).numOut = some 0 ∧
    (PassThruReadMsgs (some kSessionFrame) false (some 0)).outMsg = none ∧
    (PassThruReadMsgs (PassThruReadMsgs (some kSessionFrame) false (some 0)).mailbox
      false (some 1)).outMsg = some kSessionFrame ∧
    (PassThruReadMsgs (PassThruReadMsgs (some kSessionFrame) false (some 0)).mailbox
      false (some 1)).numOut = some 1 ∧
    (PassThruReadMsgs (PassThruReadMsgs (some kSessionFrame) false (some 0)).mailbox
      false (some 1)).mailbox = none) :=
  ⟨by decide, read_zero_count_keeps_pending kSessionFrame 1 (by decide)⟩

/-- C7: any requestSeed request (service 0x27, subfunction 0x03, frame of at
least 6 bytes) stores the response with diagnostic payload
`04 67 03 12 34`, whatever the prior mailbox state. -/
theorem requestSeed_constant_response (mb : Mailbox) (m : PassthruMsg)
    (hlen : 6 ≤ m.DataSize) (hsvc : m.Data 5 = 0x27) (hsf : m.Data 6 = 0x03) :
    (PassThruWriteMsgs mb (some m) (some 1)).mailbox =
      some (build_can_response [0x04, 0x67, 0x03, 0x12, 0x34]) ∧
    Option.map respPayload (PassThruWriteMsgs mb (some m) (some 1)).mailbox =
      some [0x04, 0x67, 0x03, 0x12, 0x34] ∧
    (PassThruWriteMsgs mb (some m) (some 1)).ret = STATUS_NOERROR := by
  have hw : PassThruWriteMsgs mb (some m) (some 1) =
      ⟨STATUS_NOERROR, some (build_can_response [0x04, 0x67, 0x03, 0x12, 0x34]),
        none⟩ := by
    simp [PassThruWriteMsgs, hlen, hsvc, hsf, Mailbox.store]
  rw [hw]
  exact ⟨rfl, by rw [Option.map, respPayload_build], rfl⟩

/-- C7 witness at the concrete requestSeed frame, with a full mailbox. -/
theorem requestSeed_constant_response_w :
    (6 ≤ kSeedFrame.DataSize ∧ kSeedFrame.Data 5 = 0x27 ∧
      kSeedFrame.Data 6 = 0x03) ∧
    ((PassThruWriteMsgs (some kSessionFrame) (some kSeedFrame) (some 1)).mailbox =
      some (build_can_response [0x04, 0x67, 0x03, 0x12, 0x34]) ∧
    Option.map respPayload
        ((PassThruWriteMsgs (some kSessionFrame) (some kSeedFrame) (some 1)).mailbox) =
      some [0x04, 0x67, 0x03, 0x12, 0x34] ∧
    (PassThruWriteMsgs (some kSessionFrame) (some kSeedFrame) (some 1)).ret =
      STATUS_NOERROR) :=
  ⟨by decide,
    requestSeed_constant_response (some kSessionFrame) kSeedFrame
      (by decide) (by decide) (by decide)⟩

/-- C2: on every matched sendKey request the analyzer records
`observed_key = KH*256 + KL` (KH, KL the two bytes after the subfunction),
`candidate_key = (0x1234 * 0x4081 + 0x1234) mod 65536`, and `matches` holds
exactly when the two agree; the stored response payload is always
`02 67 04`. -/
theorem sendKey_observation_spec (mb : Mailbox) (m : PassthruMsg)
    (hlen : 8 ≤ m.DataSize) (hsvc : m.Data 5 = 0x27) (hsf : m.Data 6 = 0x04) :
    ∃ obs,
      (PassThruWriteMsgs mb (some m) (some 1)).observation = some obs ∧
      obs.observed_key = (m.Data 7).val * 256 + (m.Data 8).val ∧
      obs.candidate_key = (0x1234 * 0x4081 + 0x1234) % 65536 ∧
      (obs.key_matches = true ↔ obs.observed_key = obs.candidate_key) ∧
      Option.map respPayload (PassThruWriteMsgs mb (some m) (some 1)).mailbox =
        some [0x02, 0x67, 0x04] := by
  have h6 : 6 ≤ m.DataSize := by omega
  have hw : PassThruWriteMsgs mb (some m) (some 1) =
      ⟨STATUS_NOERROR, some (build_can_response [0x02, 0x67, 0x04]),
        some { observed_key := ((m.Data 7).val <<< 8) ||| (m.Data 8).val,
               candidate_key := read_key,
               key_matches :=
                 (((m.Data 7).val <<< 8) ||| (m.Data 8).val) == read_key }⟩ := by
    simp [PassThruWriteMsgs, h6, hlen, hsvc, hsf, Mailbox.store]
  rw [hw]
  refine ⟨_, rfl, ?_, ?_, ?_, ?_⟩
  · exact shiftLeft_or_eq_mul_add (m.Data 7).val (m.Data 8).val (m.Data 8).isLt
  · show read_key = (0x1234 * 0x4081 + 0x1234) % 65536
    decide
  · exact beq_iff_eq
  · rw [Option.map, respPayload_build]

/-- C2 witness: `27 04 AA BB` gives `observed_key = 0xAABB`. -/
theorem sendKey_observation_spec_w :
    (8 ≤ kSendKeyFrame.DataSize ∧ kSendKeyFrame.Data 5 = 0x27 ∧
      kSendKeyFrame.Data 6 = 0x04 ∧
      (kSendKeyFrame.Data 7).val * 256 + (kSendKeyFrame.Data 8).val = 0xAABB) ∧
    (∃ obs,
      (PassThruWriteMsgs none (some kSendKeyFrame) (some 1)).observation =
        some obs ∧
      obs.observed_key =
        (kSendKeyFrame.Data 7).val * 256 + (kSendKeyFrame.Data 8).val ∧
      obs.candidate_key = (0x1234 * 0x4081 + 0x1234) % 65536 ∧
      (obs.key_matches = true ↔ obs.observed_key = obs.candidate_key) ∧
      Option.map respPayload
          ((PassThruWriteMsgs none (some kSendKeyFrame) (some 1)).mailbox) =
        some [0x02, 0x67, 0x04]) :=
  ⟨by decide,
    sendKey_observation_spec none kSendKeyFrame (by decide) (by decide) (by decide)⟩

/-- C9: a 7-byte frame with diagnostic payload exactly `27 04` is answered
by the generic default rule (no key observation), and its stored response is
byte-for-byte the one the dedicated sendKey rule stores for a matched
request. -/
theorem malformed_sendKey_fallthrough (mb mb' : Mailbox) (m m' : PassthruMsg)
    (hm : m.DataSize = 7) (h5 : m.Data 5 = 0x27) (h6 : m.Data 6 = 0x04)
    (hm' : 8 ≤ m'.DataSize) (h5' : m'.Data 5 = 0x27) (h6' : m'.Data 6 = 0x04) :
    (PassThruWriteMsgs mb (some m) (some 1)).observation = none ∧
    (PassThruWriteMsgs mb (some m) (some 1)).mailbox =
      some (build_can_response [0x02, 0x67, 0x04]) ∧
    (PassThruWriteMsgs mb' (some m') (some 1)).mailbox =
      (PassThruWriteMsgs mb (some m) (some 1)).mailbox ∧
    (PassThruWriteMsgs mb' (some m') (some 1)).observation.isSome = true := by
  have hlen : 6 ≤ m.DataSize := by omega
  have h8 : ¬ 8 ≤ m.DataSize := by omega
  have hadd : (0x27 : Byte) + 0x40 = 0x67 := by decide
  have hw : PassThruWriteMsgs mb (some m) (some 1) =
      ⟨STATUS_NOERROR, some (build_can_response [0x02, 0x67, 0x04]), none⟩ := by
    simp [PassThruWriteMsgs, hlen, h5, h6, h8, Mailbox.store, hadd]
  have h6l : 6 ≤ m'.DataSize := by omega
  have hw' : PassThruWriteMsgs mb' (some m') (some 1) =
      ⟨STATUS_NOERROR, some (build_can_response [0x02, 0x67, 0x04]),
        some { observed_key := ((m'.Data 7).val <<< 8) ||| (m'.Data 8).val,
               candidate_key := read_key,
               key_matches :=
                 (((m'.Data 7).val <<< 8) ||| (m'.Data 8).val) == read_key }⟩ := by
    simp [PassThruWriteMsgs, h6l, hm', h5', h6', Mailbox.store]
  rw [hw, hw']
  exact ⟨rfl, rfl, rfl, rfl⟩

/-- C9 witness: the concrete 7-byte `27 04` frame next to the 9-byte
`27 04 AA BB` frame. -/
theorem malformed_sendKey_fallthrough_w :
    (kShortKey7Frame.DataSize = 7 ∧ kShortKey7Frame.Data 5 = 0x27 ∧
      kShortKey7Frame.Data 6 = 0x04 ∧ 8 ≤ kSendKeyFrame.DataSize ∧
      kSendKeyFrame.Data 5 = 0x27 ∧ kSendKeyFrame.Data 6 = 0x04) ∧
    ((PassThruWriteMsgs none (some kShortKey7Frame) (some 1)).observation = none ∧
    (PassThruWriteMsgs none (some kShortKey7Frame) (some 1)).mailbox =
      some (build_can_response [0x02, 0x67, 0x04]) ∧
    (PassThruWriteMsgs none (some kSendKeyFrame) (some 1)).mailbox =
      (PassThruWriteMsgs none (some kShortKey7Frame) (some 1)).mailbox ∧
    (PassThruWriteMsgs none (some kSendKeyFrame) (some 1)).observation.isSome =
      true) :=
  ⟨by decide,
    malformed_sendKey_fallthrough none none kShortKey7Frame kSendKeyFrame
      (by decide) (by decide) (by decide) (by decide) (by decide) (by decide)⟩

/-- C8: every frame of at least 6 bytes leaves exactly one stored response,
that response is never a UDS negative response, and an unmatched service is
answered by the generic rule with payload `[0x02, service + 0x40,
subfunction]`. -/
theorem every_frame_one_positive_response (mb : Mailbox) (m : PassthruMsg)
    (hlen : 6 ≤ m.DataSize) :
    ∃ r, (PassThruWriteMsgs mb (some m) (some 1)).mailbox = some r ∧
      isNegativeResponse (respPayload r) = false ∧
      (m.Data 5 ≠ 0x10 → m.Data 5 ≠ 0x27 → m.Data 5 ≠ 0x34 →
        respPayload r = [0x02, m.Data 5 + 0x40, m.Data 6]) := by
  by_cases ha : m.Data 5 = 0x10
  · exact ⟨build_can_response [0x02, 0x50, m.Data 6],
      by simp [PassThruWriteMsgs, hlen, ha, Mailbox.store],
      by rw [respPayload_build]; rfl,
      fun hne _ _ => absurd ha hne⟩
  · by_cases hb : m.Data 5 = 0x27
    · by_cases hc : m.Data 6 = 0x03
      · exact ⟨build_can_response [0x04, 0x67, 0x03, 0x12, 0x34],
          by simp [PassThruWriteMsgs, hlen, hb, hc, Mailbox.store],
          by rw [respPayload_build]; rfl,
          fun _ hne _ => absurd hb hne⟩
      · by_cases hd : m.Data 6 = 0x04 ∧ 8 ≤ m.DataSize
        · exact ⟨build_can_response [0x02, 0x67, 0x04],
            by simp [PassThruWriteMsgs, hlen, hb, hd.1, hd.2, Mailbox.store],
            by rw [respPayload_build]; rfl,
            fun _ hne _ => absurd hb hne⟩
        · exact ⟨build_can_response [0x02, m.Data 5 + 0x40, m.Data 6],
            by simp [PassThruWriteMsgs, hlen, hb, hc, hd, Mailbox.store],
            by rw [respPayload_build]; rfl,
            fun _ hne _ => absurd hb hne⟩
    · by_cases he : m.Data 5 = 0x34
      · exact ⟨build_can_response [0x03, 0x74, 0x20, 0x0F],
          by simp [PassThruWriteMsgs, hlen, ha, hb, he, Mailbox.store],
          by rw [respPayload_build]; rfl,
          fun _ _ hne => absurd he hne⟩
      · exact ⟨build_can_response [0x02, m.Data 5 + 0x40, m.Data 6],
          by simp [PassThruWriteMsgs, hlen, ha, hb, he, Mailbox.store],
          by rw [respPayload_build]; rfl,
          fun _ _ _ => respPayload_build _⟩

/-- C8 witness: service 0x99 subfunction 0x01 yields payload `02 D9 01`. -/
theorem every_frame_one_positive_response_w :
    (6 ≤ kUnknownSvcFrame.DataSize ∧
      [0x02, kUnknownSvcFrame.Data 5 + 0x40, kUnknownSvcFrame.Data 6] =
        ([0x02, 0xD9, 0x01] : List Byte)) ∧
    (∃ r, (PassThruWriteMsgs none (some kUnknownSvcFrame) (some 1)).mailbox =
        some r ∧
      isNegativeResponse (respPayload r) = false ∧
      (kUnknownSvcFrame.Data 5 ≠ 0x10 → kUnknownSvcFrame.Data 5 ≠ 0x27 →
        kUnknownSvcFrame.Data 5 ≠ 0x34 →
        respPayload r =
          [0x02, kUnknownSvcFrame.Data 5 + 0x40, kUnknownSvcFrame.Data 6])) :=
  ⟨by decide, every_frame_one_positive_response none kUnknownSvcFrame (by decide)⟩

/-- C1 counterexample: the frame `27 04 AA` with `DataSize = 8` has only one
trailing byte after the subfunction (fewer than 2, total length below 9),
yet the dedicated sendKey rule matches it and the key analyzer runs — it is
not handled by the generic default rule. -/
theorem sendKey_matches_at_len8_cex :
    kSendKey8Frame.DataSize = 8 ∧
    kSendKey8Frame.Data 5 = 0x27 ∧ kSendKey8Frame.Data 6 = 0x04 ∧
    (PassThruWriteMsgs none (some kSendKey8Frame) (some 1)).observation.isSome =
      true := by
  decide

/-- C1 amended: for frames of at least 6 bytes carrying `27 04`, the
dedicated sendKey rule matches exactly when the total frame length is at
least 8 (one or more trailing bytes; the second key byte is then read from
the buffer at offset 8 even when it lies beyond the frame length), and with
frame length below 8 the request is handled by the generic default rule. -/
theorem sendKey_match_iff_len8 (mb : Mailbox) (m : PassthruMsg)
    (hlen : 6 ≤ m.DataSize) (h5 : m.Data 5 = 0x27) (h6 : m.Data 6 = 0x04) :
    ((PassThruWriteMsgs mb (some m) (some 1)).observation.isSome ↔
      8 ≤ m.DataSize) ∧
    (m.DataSize < 8 →
      (PassThruWriteMsgs mb (some m) (some 1)).observation = none ∧
      Option.map respPayload (PassThruWriteMsgs mb (some m) (some 1)).mailbox =
        some [0x02, 0x67, 0x04]) := by
  rcases Nat.lt_or_ge m.DataSize 8 with hl | hg
  · have h8 : ¬ 8 ≤ m.DataSize := by omega
    have hadd : (0x27 : Byte) + 0x40 = 0x67 := by decide
    have hw : PassThruWriteMsgs mb (some m) (some 1) =
        ⟨STATUS_NOERROR, some (build_can_response [0x02, 0x67, 0x04]), none⟩ := by
      simp [PassThruWriteMsgs, hlen, h5, h6, h8, Mailbox.store, hadd]
    rw [hw]
    exact ⟨by simp [h8], fun _ => ⟨rfl, by rw [Option.map, respPayload_build]⟩⟩
  · have hw : PassThruWriteMsgs mb (some m) (some 1) =
        ⟨STATUS_NOERROR, some (build_can_response [0x02, 0x67, 0x04]),
          some { observed_key := ((m.Data 7).val <<< 8) ||| (m.Data 8).val,
                 candidate_key := read_key,
                 key_matches :=
                   (((m.Data 7).val <<< 8) ||| (m.Data 8).val) == read_key }⟩ := by
      simp [PassThruWriteMsgs, hlen, hg, h5, h6, Mailbox.store]
    rw [hw]
    exact ⟨by simp [hg], fun hcon => absurd hcon (by omega)⟩

/-- C1 amended witness at the 7-byte `27 04` frame: no trailing byte, so no
match and the default rule answers. -/
theorem sendKey_match_iff_len8_w :
    (6 ≤ kShortKey7Frame.DataSize ∧ kShortKey7Frame.Data 5 = 0x27 ∧
      kShortKey7Frame.Data 6 = 0x04 ∧ kShortKey7Frame.DataSize < 8) ∧
    (((PassThruWriteMsgs none (some kShortKey7Frame) (some 1)).observation.isSome ↔
        8 ≤ kShortKey7Frame.DataSize) ∧
    (kShortKey7Frame.DataSize < 8 →
      (PassThruWriteMsgs none (some kShortKey7Frame) (some 1)).observation =
        none ∧
      Option.map respPayload
          ((PassThruWriteMsgs none (some kShortKey7Frame) (some 1)).mailbox) =
        some [0x02, 0x67, 0x04])) :=
  ⟨by decide,
    sendKey_match_iff_len8 none kShortKey7Frame (by decide) (by decide) (by decide)⟩

/-- C6 counterexample: two frames of length exactly 6 agreeing on bytes 0
through 5 but with different buffer contents at offset 6 get different
responses — the write path reads byte 6 as the subfunction even though the
frame is only 6 bytes long. -/
theorem len6_subfunction_cex :
    kLen6AFrame.DataSize = 6 ∧ kLen6BFrame.DataSize = 6 ∧
    kLen6AFrame.Data 0 = kLen6BFrame.Data 0 ∧
    kLen6AFrame.Data 1 = kLen6BFrame.Data 1 ∧
    kLen6AFrame.Data 2 = kLen6BFrame.Data 2 ∧
    kLen6AFrame.Data 3 = kLen6BFrame.Data 3 ∧
    kLen6AFrame.Data 4 = kLen6BFrame.Data 4 ∧
    kLen6AFrame.Data 5 = kLen6BFrame.Data 5 ∧
    Option.map respPayload
        ((PassThruWriteMsgs none (some kLen6AFrame) (some 1)).mailbox) =
      some [0x02, 0x50, 0x00] ∧
    Option.map respPayload
        ((PassThruWriteMsgs none (some kLen6BFrame) (some 1)).mailbox) =
      some [0x02, 0x50, 0x01] ∧
    decide (Option.map respPayload
        ((PassThruWriteMsgs none (some kLen6AFrame) (some 1)).mailbox) =
      Option.map respPayload
        ((PassThruWriteMsgs none (some kLen6BFrame) (some 1)).mailbox)) = false := by
  decide

/-- C6 amended: byte 6 of the backing buffer is used as the subfunction for
every frame of length at least 6, so two frames of length exactly 6 that
agree on buffer bytes 0 through 6 produce identical write results. -/
theorem len6_response_from_bytes_0_to_6 (mb : Mailbox) (m m' : PassthruMsg)
    (hm : m.DataSize = 6) (hm' : m'.DataSize = 6)
    (h : ∀ i : Fin 7, m.Data i.val = m'.Data i.val) :
    PassThruWriteMsgs mb (some m) (some 1) =
      PassThruWriteMsgs mb (some m') (some 1) := by
  have h5 := h ⟨5, by omega⟩
  have h6 := h ⟨6, by omega⟩
  simp [PassThruWriteMsgs, hm, hm', h5, h6]

/-- C6 amended witness: two length-6 buffers equal up to byte 6, differing
at byte 7. -/
theorem len6_response_from_bytes_0_to_6_w :
    (kLen6AFrame.DataSize = 6 ∧ kLen6CFrame.DataSize = 6 ∧
      kLen6AFrame.Data 7 = 0x00 ∧ kLen6CFrame.Data 7 = 0x55) ∧
    PassThruWriteMsgs none (some kLen6AFrame) (some 1) =
      PassThruWriteMsgs none (some kLen6CFrame) (some 1) :=
  ⟨by decide,
    len6_response_from_bytes_0_to_6 none kLen6AFrame kLen6CFrame
      rfl rfl (by decide)⟩

end MockJ2534
